import Mathlib

/-!
Verification development for the `secure-ai` security-scanner repository.

The repository contains two variants of a task-orchestration state machine:

* `main.py` — the four-stage "retry" variant (plan / execute / analyze /
  update) whose executor counts retries and whose updater appends
  deduplicated follow-up tasks for newly discovered targets;
* `scanner.py` and `src/scanner.py` — two revisions of the three-stage
  "fail-fast" variant (plan / execute / analyze) whose executor advances
  the cursor after every attempt and logs every execution failure;
* `utils.py` — the `run_command` process wrapper shared by the fail-fast
  variants.

All external collaborators (the LLM "reasoning capability" and the spawned
processes) are modelled as explicit oracle parameters, so every definition
below is an executable function of the state and of the oracles.

Python string primitives (`str.split()`, `str.strip()`, `str.lower()`,
substring membership) are modelled by executable functions on the
character list of a `String`, so that every definition evaluates inside
the kernel.
-/

set_option maxRecDepth 8000

namespace SecureAI

/-- Python `str.split()` (no separator): split on runs of whitespace,
dropping empty pieces. -/
def pySplitWs (s : String) : List String :=
  ((s.data.splitOnP (fun c => c.isWhitespace)).filter (fun l => l ≠ [])).map
    (fun l => String.mk l)

/-- Python `str.strip()`: drop leading and trailing whitespace. -/
def pyStrip (s : String) : String :=
  String.mk (((s.data.dropWhile Char.isWhitespace).reverse.dropWhile
    Char.isWhitespace).reverse)

/-- Python `str.lower()` (all strings in this code are ASCII). -/
def pyLower (s : String) : String :=
  String.mk (s.data.map Char.toLower)

/-- Python `str.split(sep)` for an explicit one-character separator
(only `output.split` on a newline occurs in the code). -/
def pySplitOn (s : String) (sep : Char) : List String :=
  (s.data.splitOnP (fun c => c = sep)).map (fun l => String.mk l)

/-- Python `sub in s`: `sub` occurs in `s` as a contiguous substring. -/
def pyContains (s sub : String) : Bool :=
  s.data.tails.any (fun t => sub.data.isPrefixOf t)

/-- Python `sep.join(parts)`. -/
def pyJoin (sep : String) (parts : List String) : String :=
  String.intercalate sep parts

/-- Task lifecycle status (`TaskInfo.status` in `tasks.py` / `main.py`;
the source stores it as one of the strings
"pending" / "running" / "completed" / "failed"). -/
inductive Status where
  | pending
  | running
  | completed
  | failed
deriving DecidableEq

/-- One entry of an analysis `findings` list (see the analysis JSON schema
in both `scanner.py` revisions). -/
structure Finding where
  type : String
  description : String
  severity : String
deriving DecidableEq

/-- The final analysis record stored in `state["analysis"]`:
`{findings, recommendations, risk_assessment}`.  The same shape is used
for the raw LLM output; a missing or empty JSON field is modelled by the
empty list / empty string, matching Python truthiness checks like
`not analysis.get("findings")`. -/
structure Analysis where
  findings : List Finding
  recommendations : List String
  risk_assessment : String
deriving DecidableEq

/-- The per-task analysis dict produced by the LLM in `main.py`
(`_analyze_results`).  The code only ever reads its `new_targets` list
(`analysis.get("new_targets", [])`), so only that field is modelled; an
absent `new_targets` key behaves like the empty list. -/
structure TaskAnalysis where
  new_targets : List String
deriving DecidableEq

/-- The result dict of one tool invocation.  `utils.run_command` returns
`{output, returncode, command}` plus an `error` key in its exception
branches; the `_run_nmap` / `_run_gobuster` helpers of `main.py` return only
`{output, error}`.  Absent keys are modelled as `none`. -/
structure RunResult where
  output : String
  returncode : Option Int
  error : Option String
  command : Option String
deriving DecidableEq

/-- `TaskInfo` (`tasks.py` / `main.py`): one unit of work.  `params` is the
string-keyed parameter dict (all values the code ever reads are strings).
`command`, `error` and `analysis` are extra keys that some variants attach
to the task dict after creation; `none` models an absent key. -/
structure TaskInfo where
  tool : String
  params : List (String × String)
  status : Status
  result : Option RunResult
  retries : Nat
  command : Option String
  error : Option String
  analysis : Option TaskAnalysis
deriving DecidableEq

/-- `params.get(key)`: first binding of `key` in the parameter dict. -/
def lookupParam (ps : List (String × String)) (k : String) : Option String :=
  match ps.find? (fun p => p.1 == k) with
  | some p => some p.2
  | none => none

/-- `params.get(key, default)`. -/
def lookupParamD (ps : List (String × String)) (k d : String) : String :=
  match lookupParam ps k with
  | some v => v
  | none => d

/-- `ScanState` (`tasks.py` / `main.py`): the aggregate state threaded
through every workflow node. -/
structure ScanState where
  instruction : String
  target : String
  tasks : List TaskInfo
  current_task_index : Nat
  discovered_targets : List String
  errors : List String
  current_node : String
  analysis : Option Analysis
deriving DecidableEq

/-- The initial state built by `run_security_scan` in every variant. -/
def initState (instruction target : String) : ScanState :=
  { instruction := instruction
    target := target
    tasks := []
    current_task_index := 0
    discovered_targets := [target]
    errors := []
    current_node := "plan"
    analysis := none }

/-- Outcome of one `subprocess` process execution, as observed by the
caller: the process completed with captured stdout/stderr and an exit
code, the 300-second `communicate(timeout=300)` deadline expired, or
spawning raised some other exception (e.g. executable not found). -/
inductive ProcOutcome where
  | completed (stdout stderr : String) (returncode : Int)
  | timedOut
  | spawnError (msg : String)
deriving DecidableEq

/-- The argv list `utils.run_command` hands to `subprocess.Popen`:
`command.split()`.  No shell is involved, so shell metacharacters stay
literal tokens. -/
def commandArgs (command : String) : List String :=
  pySplitWs command

/-- The result dict `utils.run_command` builds from one process outcome:
on completion, stderr is appended after "\nError: " when the exit code is
non-zero and blank output is replaced by "No output generated"; a timeout
or a spawn exception is converted into a `returncode = -1` record carrying
an `error` field. -/
def mkResult (command : String) : ProcOutcome → RunResult
  | ProcOutcome.completed stdout stderr rc =>
    let output := if rc ≠ 0 then stdout ++ "\nError: " ++ stderr else stdout
    let output2 := if pyStrip output = "" then "No output generated" else output
    { output := output2, returncode := some rc, error := none, command := some command }
  | ProcOutcome.timedOut =>
    { output := "Command timed out after 300 seconds", returncode := some (-1),
      error := some "timeout", command := some command }
  | ProcOutcome.spawnError msg =>
    { output := "Command failed: " ++ msg, returncode := some (-1),
      error := some msg, command := some command }

/-- `utils.run_command`, instrumented with the list of argv vectors passed
to `subprocess.Popen`: the `try` block calls `Popen(command.split(), ...)`
exactly once, unconditionally and before any other check, so the trace is
always the singleton of the whitespace-split command.  `spawn` is the
oracle giving the behaviour of the spawned process. -/
def run_command_traced (command : String) (spawn : List String → ProcOutcome) :
    List (List String) × RunResult :=
  ([commandArgs command], mkResult command (spawn (commandArgs command)))

/-- `utils.run_command`: the result dict of the (traced) execution. -/
def run_command (command : String) (spawn : List String → ProcOutcome) : RunResult :=
  (run_command_traced command spawn).2

theorem run_command_eq (command : String) (spawn : List String → ProcOutcome) :
    run_command command spawn = mkResult command (spawn (commandArgs command)) :=
  rfl

/-- The replaced-if-blank output of `run_command` is never the empty
string. -/
theorem output_fill_ne_empty (x : String) :
    (if pyStrip x = "" then "No output generated" else x) ≠ "" := by
  split
  · decide
  · intro h
    subst h
    simp_all [pyStrip]

/-- C10: For every command string, `run_command` is total and never
raises: it always returns a record whose `output` field is a non-empty
string (blank captured output is replaced by "No output generated",
timeouts and spawn errors are converted into records with returncode -1
and an `error` field), together with a `returncode` and the original
`command`. -/
theorem C10_run_command_total (cmd : String) (spawn : List String → ProcOutcome) :
    (run_command cmd spawn).output ≠ "" ∧
    (run_command cmd spawn).command = some cmd ∧
    (run_command cmd spawn).returncode ≠ none ∧
    (spawn (commandArgs cmd) = ProcOutcome.timedOut →
      run_command cmd spawn =
        { output := "Command timed out after 300 seconds", returncode := some (-1),
          error := some "timeout", command := some cmd }) ∧
    (∀ m, spawn (commandArgs cmd) = ProcOutcome.spawnError m →
      (run_command cmd spawn).returncode = some (-1) ∧
      (run_command cmd spawn).error = some m) ∧
    (∀ so se rc, spawn (commandArgs cmd) = ProcOutcome.completed so se rc →
      pyStrip so = "" → rc = 0 →
      (run_command cmd spawn).output = "No output generated") := by
  rw [run_command_eq]
  cases h : spawn (commandArgs cmd) with
  | completed so se rc =>
    refine ⟨?_, rfl, ?_, ?_, ?_, ?_⟩
    · exact output_fill_ne_empty _
    · simp [mkResult]
    · intro hcontra
      cases hcontra
    · intro m hcontra
      cases hcontra
    · intro so2 se2 rc2 heq htrim hrc
      cases heq
      subst hrc
      simp [mkResult, htrim]
  | timedOut =>
    refine ⟨?_, rfl, ?_, ?_, ?_, ?_⟩
    · simp [mkResult]
    · simp [mkResult]
    · intro _
      rfl
    · intro m hcontra
      cases hcontra
    · intro so2 se2 rc2 heq
      cases heq
  | spawnError m =>
    refine ⟨?_, rfl, ?_, ?_, ?_, ?_⟩
    · intro hc
      have h2 := congrArg String.data hc
      simp [mkResult, String.data_append] at h2
    · simp [mkResult]
    · intro hcontra
      cases hcontra
    · intro m2 heq
      cases heq
      exact ⟨rfl, rfl⟩
    · intro so2 se2 rc2 heq
      cases heq

/-- Witness for C10 at a concrete command and a timing-out process. -/
theorem C10_run_command_total_witness :
    run_command "nmap -sV 10.0.0.1" (fun _ => ProcOutcome.timedOut) =
      { output := "Command timed out after 300 seconds", returncode := some (-1),
        error := some "timeout", command := some "nmap -sV 10.0.0.1" } :=
  (C10_run_command_total "nmap -sV 10.0.0.1" (fun _ => ProcOutcome.timedOut)).2.2.2.1 rfl

/-- C3 counterexample: the command containing shell metacharacters
"nmap -sV 10.0.0.1; rm -rf /" is NOT rejected: `run_command` passes its
whitespace-split tokens to `subprocess.Popen` (the spawn trace is a
non-empty singleton), and when the spawned process completes the call
returns a plain success record built from the process output, with no
error flagged — there is no allowlist check and no rejection path. -/
theorem C3_no_validation_counterexample :
    (run_command_traced "nmap -sV 10.0.0.1; rm -rf /"
        (fun _ => ProcOutcome.completed "Starting Nmap 7.80" "" 0)).1 =
      [["nmap", "-sV", "10.0.0.1;", "rm", "-rf", "/"]] ∧
    (run_command_traced "nmap -sV 10.0.0.1; rm -rf /"
        (fun _ => ProcOutcome.completed "Starting Nmap 7.80" "" 0)).1 ≠ [] ∧
    run_command "nmap -sV 10.0.0.1; rm -rf /"
        (fun _ => ProcOutcome.completed "Starting Nmap 7.80" "" 0) =
      { output := "Starting Nmap 7.80", returncode := some 0, error := none,
        command := some "nmap -sV 10.0.0.1; rm -rf /" } := by
  refine ⟨by decide, by decide, by decide⟩

/-- C3 (amended): the shipped code performs no command validation at all.
For every command string, `run_command` unconditionally spawns exactly one
process whose argv is the whitespace-split command (shell metacharacters
are passed as literal tokens, never interpreted, and nothing is rejected),
and whenever the spawned process completes with exit code 0 the returned
record carries no error flag. -/
theorem C3_no_validation_amended (cmd : String) (spawn : List String → ProcOutcome) :
    (run_command_traced cmd spawn).1 = [commandArgs cmd] ∧
    (run_command_traced cmd spawn).1 ≠ [] ∧
    (∀ so se, spawn (commandArgs cmd) = ProcOutcome.completed so se 0 →
      (run_command cmd spawn).error = none) := by
  refine ⟨rfl, by simp [run_command_traced], ?_⟩
  intro so se h
  rw [run_command_eq, h]
  simp [mkResult]

/-- Witness for C3 (amended) at a concrete command and completing
process. -/
theorem C3_no_validation_amended_witness :
    (run_command "gobuster dir -u http://example.com"
        (fun _ => ProcOutcome.completed "found /admin" "" 0)).error = none :=
  (C3_no_validation_amended "gobuster dir -u http://example.com"
      (fun _ => ProcOutcome.completed "found /admin" "" 0)).2.2 "found /admin" "" rfl

/-- One `{tool, params, description}` entry of the plan JSON returned by
the LLM; `_plan_tasks` only reads `tool` and `params`. -/
structure PlannedTask where
  tool : String
  params : List (String × String)
deriving DecidableEq

/-- `_plan_tasks` (identical in `main.py` and both `scanner.py`
revisions): on a successful LLM plan, replace `tasks` with fresh pending
tasks; on any exception (transport failure, malformed JSON, missing
`tool`/`params` key), append one "Task planning error" entry and leave
`tasks` unchanged.  The `Except.error` of the planner oracle carries the
exception text. -/
def plan_tasks (planner : Except String (List PlannedTask)) (s : ScanState) : ScanState :=
  match planner with
  | Except.ok ts =>
    { s with tasks := ts.map (fun p =>
        { tool := p.tool, params := p.params, status := Status.pending,
          result := none, retries := 0, command := none, error := none, analysis := none }) }
  | Except.error msg =>
    { s with errors := s.errors ++ ["Task planning error: " ++ msg] }

namespace FailFast

/-- `_execute_current_task` of the fail-fast variant (`scanner.py` and
`src/scanner.py`, identical there): build the fixed command line for the
tool of the task, call `utils.run_command`, treat a missing `target` parameter
(KeyError), an unknown tool, or an empty `output` field as an exception;
on success store the result, mark the task completed and remember the
command; on failure mark the task failed, record the message on the task
and append one run-level error.  The cursor is incremented afterwards in
either case.  `proc` is the process-behaviour oracle for this invocation.
(The router only enters this node with the cursor in range; on an
out-of-range cursor the Python code would raise `IndexError` before
reaching any of the updates below, so the model returns the state
unchanged there.) -/
def execute_current_task (proc : String → ProcOutcome) (s : ScanState) : ScanState :=
  if h : s.current_task_index < s.tasks.length then
    let t := s.tasks.get ⟨s.current_task_index, h⟩
    let t1 : TaskInfo := { t with status := Status.running }
    let attempt : Except String (String × RunResult) :=
      match t1.tool, lookupParam t1.params "target" with
      | "nmap", some tgt =>
        let c := "nmap -v -sV -p- " ++ tgt
        Except.ok (c, run_command c (fun _ => proc c))
      | "nmap", none => Except.error "\u0027target\u0027"
      | "gobuster", some tgt =>
        let c := "gobuster dir -u http://" ++ tgt ++ " -w /usr/share/wordlists/dirb/common.txt -t 50"
        Except.ok (c, run_command c (fun _ => proc c))
      | "gobuster", none => Except.error "\u0027target\u0027"
      | other, _ => Except.error ("Unknown tool: " ++ other)
    let s2 :=
      match attempt with
      | Except.ok (c, r) =>
        if r.output = "" then
          { s with
            tasks := s.tasks.set s.current_task_index
              { t1 with status := Status.failed, error := some ("No output from " ++ t1.tool) }
            errors := s.errors ++ ["Task execution failed: No output from " ++ t1.tool] }
        else
          { s with
            tasks := s.tasks.set s.current_task_index
              { t1 with status := Status.completed, result := some r, command := some c } }
      | Except.error msg =>
        { s with
          tasks := s.tasks.set s.current_task_index
            { t1 with status := Status.failed, error := some msg }
          errors := s.errors ++ ["Task execution failed: " ++ msg] }
    { s2 with current_task_index := s2.current_task_index + 1 }
  else s

/-- The scan summary built by `_analyze_results` in `scanner.py`: one
entry per task with `status == "completed"` and a truthy `result`. -/
def scan_summary (tasks : List TaskInfo) : List String :=
  tasks.filterMap (fun t =>
    match t.status, t.result with
    | Status.completed, some r =>
      some ("TOOL: " ++ t.tool ++ "\nTARGET: " ++ lookupParamD t.params "target" "unknown"
        ++ "\nOUTPUT:\n" ++ pyStrip r.output)
    | _, _ => none)

/-- The deterministic fallback analysis built by the exception handler
of `_analyze_results` in `scanner.py`. -/
def analysis_fallback : Analysis :=
  { findings := [{ type := "error", description := "Failed to analyze scan results",
                   severity := "unknown" }]
    recommendations := ["Manual security review recommended"]
    risk_assessment := "unknown" }

/-- The success-path backfill in `scanner.py`: only an empty/missing `findings`
list is replaced by the default informational finding. -/
def backfill_findings (a : Analysis) : Analysis :=
  if a.findings = [] then
    { a with findings :=
        [⟨"information", "No significant security issues found", "low"⟩] }
  else a

/-- `_analyze_results` of `scanner.py`: summarize every completed task; an
empty summary raises "No scan results to analyze", and any exception
(including an LLM failure, modelled by an `Except.error` oracle value) logs
one "Analysis error" entry and substitutes the deterministic fallback
analysis.  On success only the `findings` field is backfilled. -/
def analyze_results (llm : String → Except String Analysis) (s : ScanState) : ScanState :=
  if scan_summary s.tasks = [] then
    { s with errors := s.errors ++ ["Analysis error: No scan results to analyze"],
             analysis := some analysis_fallback }
  else
    match llm (pyJoin "\n\n" (scan_summary s.tasks)) with
    | Except.error msg =>
      { s with errors := s.errors ++ ["Analysis error: " ++ msg],
               analysis := some analysis_fallback }
    | Except.ok a => { s with analysis := some (backfill_findings a) }

/-- The nmap line filter of `_analyze_results` in `src/scanner.py`: keep
the output lines mentioning ports/services. -/
def nmap_summary_lines (output : String) : List String :=
  (pySplitOn output '\n').filter (fun l =>
    ["port", "open", "service", "version"].any (fun x => pyContains (pyLower l) x))

/-- The scan summary of `_analyze_results` in `src/scanner.py`.  In the
source the adjacent string literals of the nmap branch concatenate, so the
entire "NMAP FINDINGS" header string (ending in a second newline) is the
SEPARATOR of the `join` over the filtered lines, not a prefix. -/
def scan_summary_v2 (tasks : List TaskInfo) : List String :=
  tasks.filterMap (fun t =>
    match t.status, t.result with
    | Status.completed, some r =>
      let output := pyStrip r.output
      if pyLower t.tool = "nmap" then
        some (pyJoin ("NMAP FINDINGS:\n- Target: " ++ lookupParamD t.params "target" "None"
          ++ "\n- Ports and Services:\n" ++ "\n") (nmap_summary_lines output))
      else if pyLower t.tool = "gobuster" then
        some ("DIRECTORY SCAN FINDINGS:\n- Target: " ++ lookupParamD t.params "target" "None"
          ++ "\n- Discovered Paths:\n" ++ output)
      else none
    | _, _ => none)

/-- The deterministic fallback analysis built by the exception handler
of `_analyze_results` in `src/scanner.py` (its finding description embeds the
exception text). -/
def analysis_fallback_v2 (msg : String) : Analysis :=
  { findings := [{ type := "scan_analysis", description := "Analysis error: " ++ msg,
                   severity := "medium" }]
    recommendations := ["Review raw scan results manually",
                        "Try running the scan again with different parameters"]
    risk_assessment := "medium" }

/-- The success-path normalization in `src/scanner.py` of the LLM analysis:
backfill `findings`, then `recommendations`, then `risk_assessment` when
missing/empty. -/
def backfill_findings_v2 (a : Analysis) : Analysis :=
  if a.findings = [] then
    { a with findings :=
        [⟨"scan_complete", "No immediate security issues found", "low"⟩] }
  else a

def backfill_recommendations_v2 (a : Analysis) : Analysis :=
  if a.recommendations = [] then
    { a with recommendations := ["Continue regular security monitoring"] }
  else a

def backfill_risk_v2 (a : Analysis) : Analysis :=
  if a.risk_assessment = "" then { a with risk_assessment := "low" } else a

def normalize_analysis_v2 (a : Analysis) : Analysis :=
  backfill_risk_v2 (backfill_recommendations_v2 (backfill_findings_v2 a))

/-- `_analyze_results` of `src/scanner.py`: build the (possibly empty)
summary, ALWAYS invoke the LLM on it — there is no empty-summary check in
this revision — and store its normalized output; only an exception
(modelled by an `Except.error` oracle value) logs an "Analysis error" entry
and substitutes the deterministic medium-risk fallback. -/
def analyze_results_v2 (llm : String → Except String Analysis) (s : ScanState) : ScanState :=
  match llm (pyJoin "\n\n" (scan_summary_v2 s.tasks)) with
  | Except.error msg =>
    { s with errors := s.errors ++ ["Analysis error: " ++ msg],
             analysis := some (analysis_fallback_v2 msg) }
  | Except.ok a => { s with analysis := some (normalize_analysis_v2 a) }

/-- The nodes of the three-stage fail-fast workflow. -/
inductive Node where
  | plan
  | execute
  | analyze
  | terminal
deriving DecidableEq

/-- Oracles of one fail-fast run: the planner LLM call, per-task process
behaviour (indexed by the cursor value at execution time — each index is
executed at most once), and the analysis LLM call. -/
structure Env where
  planner : Except String (List PlannedTask)
  proc : Nat → String → ProcOutcome
  llm : String → Except String Analysis

/-- One transition of the fail-fast router (`_create_workflow` in both
`scanner.py` revisions): `route_after_plan` enters execution iff tasks
were produced; `route_after_execute` ends the run as soon as the error log
is non-empty, moves to analysis once the cursor reaches the end, and loops
otherwise; `route_after_analyze` always ends the run.  The analysis node
body `az` is a parameter so that both revisions share one machine. -/
def step_scan (az : ScanState → ScanState) (planner : Except String (List PlannedTask))
    (proc : Nat → String → ProcOutcome) : Node × ScanState → Node × ScanState
  | (Node.plan, s) =>
    let s2 := plan_tasks planner s
    (if s2.tasks.isEmpty then Node.terminal else Node.execute, s2)
  | (Node.execute, s) =>
    let s2 := execute_current_task (proc s.current_task_index) s
    (if s2.errors.isEmpty then
       (if s2.tasks.length ≤ s2.current_task_index then Node.analyze else Node.execute)
     else Node.terminal, s2)
  | (Node.analyze, s) => (Node.terminal, az s)
  | (Node.terminal, s) => (Node.terminal, s)

/-- `n` router steps of the `scanner.py` workflow from a start state. -/
def run_v1 (env : Env) (s0 : ScanState) (n : Nat) : Node × ScanState :=
  (step_scan (analyze_results env.llm) env.planner env.proc)^[n] (Node.plan, s0)

/-- `n` router steps of the `src/scanner.py` workflow from a start
state. -/
def run_v2 (env : Env) (s0 : ScanState) (n : Nat) : Node × ScanState :=
  (step_scan (analyze_results_v2 env.llm) env.planner env.proc)^[n] (Node.plan, s0)

/-- A fail-fast run whose planner yields one nmap task and whose process
invocation hits the 300-second timeout. -/
def env_timeout : Env :=
  { planner := Except.ok [{ tool := "nmap", params := [("target", "10.0.0.1")] }]
    proc := fun _ _ => ProcOutcome.timedOut
    llm := fun _ => Except.error "unused" }

/-- C2: evaluation of the fail-fast variant at a timed-out process
invocation.  `utils.run_command` converts the timeout into a record with
the non-empty output "Command timed out after 300 seconds" and
`error = "timeout"`, and `_execute_current_task` only checks output
truthiness, so the task is recorded as COMPLETED (with the timeout record
as its result), no error is logged, and the router proceeds to the
analysis stage — contradicting the claim that a timed-out invocation is
recorded as a failure and never as a completed task. -/
theorem C2_timeout_marked_completed :
    (run_v1 env_timeout (initState "scan ports" "10.0.0.1") 2).1 = Node.analyze ∧
    (run_v1 env_timeout (initState "scan ports" "10.0.0.1") 2).2.tasks =
      [{ tool := "nmap", params := [("target", "10.0.0.1")], status := Status.completed,
         result := some { output := "Command timed out after 300 seconds",
                          returncode := some (-1), error := some "timeout",
                          command := some "nmap -v -sV -p- 10.0.0.1" },
         retries := 0, command := some "nmap -v -sV -p- 10.0.0.1",
         error := none, analysis := none }] ∧
    (run_v1 env_timeout (initState "scan ports" "10.0.0.1") 2).2.errors = [] := by
  refine ⟨by decide, by decide, by decide⟩

/-- A task list whose tasks all have `status ≠ completed` produces an
empty `scanner.py` scan summary. -/
theorem scan_summary_eq_nil (tasks : List TaskInfo)
    (h : ∀ t ∈ tasks, t.status ≠ Status.completed) : scan_summary tasks = [] := by
  rw [scan_summary, List.filterMap_eq_nil_iff]
  intro t ht
  have h2 := h t ht
  cases hs : t.status <;> cases hr : t.result <;> simp_all

/-- All three fields survive the `src/scanner.py` normalization
non-empty. -/
theorem normalize_v2_fields (a : Analysis) :
    (normalize_analysis_v2 a).findings ≠ [] ∧
    (normalize_analysis_v2 a).recommendations ≠ [] ∧
    (normalize_analysis_v2 a).risk_assessment ≠ "" := by
  unfold normalize_analysis_v2 backfill_risk_v2 backfill_recommendations_v2 backfill_findings_v2
  split_ifs <;> simp_all

/-- In `src/scanner.py`, analysis is always set and all three fields are
non-empty, for every LLM behaviour and every state. -/
theorem analyze_results_v2_fields (llm2 : String → Except String Analysis) (s : ScanState) :
    ∃ a, (analyze_results_v2 llm2 s).analysis = some a ∧
      a.findings ≠ [] ∧ a.recommendations ≠ [] ∧ a.risk_assessment ≠ "" := by
  unfold analyze_results_v2
  cases h : llm2 (pyJoin "\n\n" (scan_summary_v2 s.tasks)) with
  | error msg =>
    exact ⟨analysis_fallback_v2 msg, rfl, by simp [analysis_fallback_v2],
      by simp [analysis_fallback_v2], by simp [analysis_fallback_v2]⟩
  | ok a =>
    exact ⟨normalize_analysis_v2 a, rfl, (normalize_v2_fields a).1,
      (normalize_v2_fields a).2.1, (normalize_v2_fields a).2.2⟩

/-- A concrete task that was attempted and failed (so zero completed
tasks exist). -/
def failed_task : TaskInfo :=
  { tool := "nmap", params := [("target", "10.0.0.1")], status := Status.failed,
    result := none, retries := 0, command := none,
    error := some "Unknown tool: nmap2", analysis := none }

/-- C8 counterexample: in the `src/scanner.py` revision, with zero
completed tasks, `_analyze_results` does NOT substitute the deterministic
fallback — it invokes the LLM on the empty summary and keeps whatever the
LLM returns (here a risk_assessment of "high", outside
{low, medium, unknown}), and logs no error. -/
theorem C8_analyzer_fallback_counterexample :
    (analyze_results_v2
        (fun _ => Except.ok ⟨[⟨"open_port", "port 80 open", "high"⟩], ["close port 80"], "high"⟩)
        { initState "scan" "example.com" with tasks := [failed_task] }).analysis =
      some ⟨[⟨"open_port", "port 80 open", "high"⟩], ["close port 80"], "high"⟩ ∧
    (analyze_results_v2
        (fun _ => Except.ok ⟨[⟨"open_port", "port 80 open", "high"⟩], ["close port 80"], "high"⟩)
        { initState "scan" "example.com" with tasks := [failed_task] }).errors = [] ∧
    ("high" ∈ ["low", "medium", "unknown"]) = False := by
  refine ⟨by decide, by decide, by decide⟩

/-- C8 (amended): with zero completed tasks, the `scanner.py` revision
raises "No scan results to analyze" internally and substitutes the
deterministic fallback (non-empty findings, non-empty recommendations,
risk_assessment "unknown") regardless of the LLM; the `src/scanner.py`
revision instead still consults the LLM on the empty summary and keeps its
(normalized) output, so its risk_assessment is whatever the LLM returned —
but in both revisions analyze never raises, always sets `analysis`, and
all three fields are readable (non-empty findings and recommendations, and
a non-empty risk_assessment). -/
theorem C8_analyzer_fallback_amended (s : ScanState)
    (llm llm2 : String → Except String Analysis)
    (hzero : ∀ t ∈ s.tasks, t.status ≠ Status.completed) :
    ((analyze_results llm s).analysis = some analysis_fallback ∧
      (analyze_results llm s).errors =
        s.errors ++ ["Analysis error: No scan results to analyze"] ∧
      analysis_fallback.findings ≠ [] ∧
      analysis_fallback.recommendations ≠ [] ∧
      analysis_fallback.risk_assessment = "unknown") ∧
    (∃ a, (analyze_results_v2 llm2 s).analysis = some a ∧
      a.findings ≠ [] ∧ a.recommendations ≠ [] ∧ a.risk_assessment ≠ "") := by
  have hsum := scan_summary_eq_nil s.tasks hzero
  refine ⟨⟨?_, ?_, by decide, by decide, by decide⟩, analyze_results_v2_fields llm2 s⟩
  · simp [analyze_results, hsum]
  · simp [analyze_results, hsum]

/-- Witness for C8 (amended) at a concrete state with no completed task
and concrete LLM behaviours. -/
theorem C8_analyzer_fallback_amended_witness :
    (analyze_results (fun _ => Except.error "unused")
        { initState "scan" "example.com" with tasks := [failed_task] }).analysis =
      some analysis_fallback :=
  (C8_analyzer_fallback_amended
      { initState "scan" "example.com" with tasks := [failed_task] }
      (fun _ => Except.error "unused") (fun _ => Except.error "unused")
      (by decide)).1.1

/-- With the cursor in range, the fail-fast executor rewrites the current
task, sets the errors to the old log or the old log plus one entry, and
increments the cursor; nothing else changes. -/
theorem execute_current_task_shape (proc : String → ProcOutcome) (s : ScanState)
    (h : s.current_task_index < s.tasks.length) :
    ∃ x E, (E = s.errors ∨ ∃ e, E = s.errors ++ [e]) ∧
      execute_current_task proc s =
        { s with tasks := s.tasks.set s.current_task_index x
                 errors := E
                 current_task_index := s.current_task_index + 1 } := by
  unfold execute_current_task
  rw [dif_pos h]
  dsimp only
  repeat' split
  all_goals first
    | exact ⟨_, _, Or.inl rfl, rfl⟩
    | exact ⟨_, _, Or.inr ⟨_, rfl⟩, rfl⟩

/-- With the cursor out of range the fail-fast executor is the identity
(the Python code would raise before any update). -/
theorem execute_current_task_oob (proc : String → ProcOutcome) (s : ScanState)
    (h : s.tasks.length ≤ s.current_task_index) :
    execute_current_task proc s = s := by
  unfold execute_current_task
  rw [dif_neg (by omega)]

/-- The `scanner.py` analysis node touches neither the task list nor the
cursor. -/
theorem analyze_results_pres (llm : String → Except String Analysis) (s : ScanState) :
    (analyze_results llm s).tasks = s.tasks ∧
    (analyze_results llm s).current_task_index = s.current_task_index := by
  unfold analyze_results
  split
  · exact ⟨rfl, rfl⟩
  · split <;> exact ⟨rfl, rfl⟩

/-- The `src/scanner.py` analysis node touches neither the task list nor
the cursor. -/
theorem analyze_results_v2_pres (llm : String → Except String Analysis) (s : ScanState) :
    (analyze_results_v2 llm s).tasks = s.tasks ∧
    (analyze_results_v2 llm s).current_task_index = s.current_task_index := by
  unfold analyze_results_v2
  split <;> exact ⟨rfl, rfl⟩

/-- `_plan_tasks` touches neither the cursor nor the analysis. -/
theorem plan_tasks_core (p : Except String (List PlannedTask)) (s : ScanState) :
    (plan_tasks p s).current_task_index = s.current_task_index ∧
    (plan_tasks p s).analysis = s.analysis := by
  cases p <;> exact ⟨rfl, rfl⟩

/-- After planning, every task at or past the cursor is pending (fresh
tasks are created pending; on a planning failure the old tail is kept). -/
theorem plan_tasks_pend (p : Except String (List PlannedTask)) (s : ScanState)
    (hpend : ∀ j, s.current_task_index ≤ j → ∀ x, s.tasks[j]? = some x →
      x.status = Status.pending) :
    ∀ j, (plan_tasks p s).current_task_index ≤ j → ∀ x,
      (plan_tasks p s).tasks[j]? = some x → x.status = Status.pending := by
  cases p with
  | ok ts =>
    intro j _ x hx
    simp only [plan_tasks, List.getElem?_map] at hx
    cases hts : ts[j]? with
    | none => rw [hts] at hx; cases hx
    | some y => rw [hts] at hx; cases hx; rfl
  | error m => exact hpend

/-- The reachability invariant of the fail-fast router: the cursor is
bounded by the task count (strictly when entering the executor, zero at
the planning stage), the analysis is unset until the terminal transition,
and every task at or past the cursor is still pending. -/
def GoodF : Node × ScanState → Prop
  | (nd, s) =>
    s.current_task_index ≤ s.tasks.length ∧
    (nd = Node.plan → s.current_task_index = 0) ∧
    (nd = Node.execute → s.current_task_index < s.tasks.length) ∧
    (nd ≠ Node.terminal → s.analysis = none) ∧
    (∀ j, s.current_task_index ≤ j → ∀ x, s.tasks[j]? = some x →
      x.status = Status.pending)

/-- One fail-fast router step preserves the reachability invariant, for
any analysis-stage body that keeps the task list and the cursor. -/
theorem step_scan_good (az : ScanState → ScanState)
    (haz : ∀ s2, (az s2).tasks = s2.tasks ∧ (az s2).current_task_index = s2.current_task_index)
    (p : Except String (List PlannedTask)) (pr : Nat → String → ProcOutcome)
    (c : Node × ScanState) (hc : GoodF c) : GoodF (step_scan az p pr c) := by
  obtain ⟨nd, s⟩ := c
  obtain ⟨hle, hplan, hexec, hanal, hpend⟩ := hc
  cases nd with
  | plan =>
    have h0 : s.current_task_index = 0 := hplan rfl
    have hcore := plan_tasks_core p s
    have hpend2 := plan_tasks_pend p s hpend
    refine ⟨?_, ?_, ?_, ?_, hpend2⟩
    · rw [hcore.1, h0]
      exact Nat.zero_le _
    · intro _
      rw [hcore.1, h0]
    · intro hx
      by_cases hemp : (plan_tasks p s).tasks.isEmpty
      · rw [if_pos hemp] at hx
        cases hx
      · have hne : (plan_tasks p s).tasks ≠ [] := by
          intro hnil
          rw [hnil] at hemp
          simp at hemp
        rw [hcore.1, h0]
        exact List.length_pos.mpr hne
    · intro _
      rw [hcore.2]
      exact hanal (by simp)
  | execute =>
    have hin : s.current_task_index < s.tasks.length := hexec rfl
    obtain ⟨x, E, hE, heq⟩ := execute_current_task_shape (pr s.current_task_index) s hin
    simp only [step_scan]
    rw [heq]
    refine ⟨?_, ?_, ?_, ?_, ?_⟩
    · dsimp only
      simp only [List.length_set]
      omega
    · intro hx
      exfalso
      split at hx
      · split at hx <;> cases hx
      · cases hx
    · intro hx
      split at hx
      · split at hx
        · cases hx
        · dsimp only
          simp_all [List.length_set]
      · cases hx
    · intro _
      exact hanal (by simp)
    · intro j hj x2 hx2
      dsimp only at hj hx2
      rw [List.getElem?_set_ne (by omega)] at hx2
      exact hpend j (by omega) x2 hx2
  | analyze =>
    have h1 := (haz s).1
    have h2 := (haz s).2
    refine ⟨?_, ?_, ?_, ?_, ?_⟩
    · rw [h1, h2]
      exact hle
    · intro hx
      cases hx
    · intro hx
      cases hx
    · intro hx
      exact absurd rfl hx
    · rw [h1, h2]
      exact hpend
  | terminal =>
    exact ⟨hle, fun hx => Node.noConfusion hx, fun hx => Node.noConfusion hx,
      fun hx => absurd rfl hx, hpend⟩


/-- The fail-fast reachability invariant holds at every observation point
of a run (either analysis revision). -/
theorem goodF_run (az : ScanState → ScanState)
    (haz : ∀ s2, (az s2).tasks = s2.tasks ∧ (az s2).current_task_index = s2.current_task_index)
    (p : Except String (List PlannedTask)) (pr : Nat → String → ProcOutcome)
    (i t : String) (n : Nat) :
    GoodF ((step_scan az p pr)^[n] (Node.plan, initState i t)) := by
  induction n with
  | zero =>
    refine ⟨Nat.le_refl 0, fun _ => rfl, fun hx => Node.noConfusion hx, fun _ => rfl, ?_⟩
    intro j _ x hx
    simp [initState] at hx
  | succ n ih =>
    rw [Function.iterate_succ_apply']
    exact step_scan_good az haz p pr _ ih

/-- One fail-fast router step never decreases the cursor. -/
theorem step_scan_mono (az : ScanState → ScanState)
    (haz : ∀ s2, (az s2).current_task_index = s2.current_task_index)
    (p : Except String (List PlannedTask)) (pr : Nat → String → ProcOutcome)
    (c : Node × ScanState) :
    c.2.current_task_index ≤ (step_scan az p pr c).2.current_task_index := by
  obtain ⟨nd, s⟩ := c
  cases nd with
  | plan =>
    have := (plan_tasks_core p s).1
    simp [step_scan, this]
  | execute =>
    by_cases h : s.current_task_index < s.tasks.length
    · obtain ⟨x, E, _, heq⟩ := execute_current_task_shape (pr s.current_task_index) s h
      simp [step_scan, heq]
    · have hid : execute_current_task (pr s.current_task_index) s = s :=
        execute_current_task_oob _ s (by omega)
      simp [step_scan, hid]
  | analyze => simp [step_scan, haz s]
  | terminal => simp [step_scan]

end FailFast

namespace Retry

/-- Outcome of one `subprocess.run(..., timeout=300)` call in `main.py`:
either the process finished with captured stdout/stderr and an exit code,
or the call raised (a `TimeoutExpired` after 300 seconds, a missing
executable, etc.) with some exception text. -/
inductive ToolOutcome where
  | finished (stdout stderr : String) (returncode : Int)
  | raised (msg : String)
deriving DecidableEq

/-- `_run_nmap` of `main.py`: build
`nmap {flags or -sV} {target}` (a missing `target` key raises KeyError
while the command string is formatted) and run it; the returned dict is
`{output: stdout, error: stderr if returncode != 0 else None}`.  `tool` is
the process-behaviour oracle. -/
def run_nmap (params : List (String × String)) (tool : String → ToolOutcome) :
    Except String RunResult :=
  match lookupParam params "target" with
  | none => Except.error "\u0027target\u0027"
  | some tgt =>
    match tool ("nmap " ++ lookupParamD params "flags" "-sV" ++ " " ++ tgt) with
    | ToolOutcome.finished so se rc =>
      Except.ok { output := so, returncode := none,
                  error := if rc ≠ 0 then some se else none, command := none }
    | ToolOutcome.raised msg => Except.error msg

/-- `_run_gobuster` of `main.py`: build
`gobuster dir -u {target} -w {wordlist or default}` and run it. -/
def run_gobuster (params : List (String × String)) (tool : String → ToolOutcome) :
    Except String RunResult :=
  match lookupParam params "target" with
  | none => Except.error "\u0027target\u0027"
  | some tgt =>
    match tool ("gobuster dir -u " ++ tgt ++ " -w "
        ++ lookupParamD params "wordlist" "/usr/share/wordlists/dirb/common.txt") with
    | ToolOutcome.finished so se rc =>
      Except.ok { output := so, returncode := none,
                  error := if rc ≠ 0 then some se else none, command := none }
    | ToolOutcome.raised msg => Except.error msg

/-- `_execute_current_task` of `main.py` (the retry variant): dispatch on
the tool; on success store the result and mark the task completed (this
variant does NOT check output emptiness); on any exception mark the task
failed, then — if `retries < 3` — increment `retries` and reset the status
to pending WITHOUT logging anything, and only at the cap log one run-level
error and leave the task failed.  This variant does NOT move the cursor
(only the router does, in `route_after_update`). -/
def execute_current_task (tool : String → ToolOutcome) (s : ScanState) : ScanState :=
  if h : s.current_task_index < s.tasks.length then
    let t := s.tasks.get ⟨s.current_task_index, h⟩
    let t1 : TaskInfo := { t with status := Status.running }
    let attempt : Except String RunResult :=
      match t1.tool with
      | "nmap" => run_nmap t1.params tool
      | "gobuster" => run_gobuster t1.params tool
      | other => Except.error ("Unknown tool: " ++ other)
    match attempt with
    | Except.ok r =>
      { s with
        tasks := s.tasks.set s.current_task_index
          { t1 with result := some r, status := Status.completed } }
    | Except.error msg =>
      if t1.retries < 3 then
        { s with
          tasks := s.tasks.set s.current_task_index
            { t1 with status := Status.pending, retries := t1.retries + 1 } }
      else
        { s with
          tasks := s.tasks.set s.current_task_index { t1 with status := Status.failed }
          errors := s.errors ++ ["Task execution failed: " ++ msg] }
  else s

/-- `_analyze_results` of `main.py`: a per-task analysis of the CURRENT
task only.  A non-completed current task is skipped silently; an LLM
failure logs one "Analysis error" entry; on success the analysis dict is
stored on the task and the genuinely new entries of its `new_targets` are
appended to `discovered_targets` (the membership filter is evaluated
against the list before the extension, as in the source list
comprehension).  `az` is the per-invocation LLM oracle. -/
def analyze_results (az : Except String TaskAnalysis) (s : ScanState) : ScanState :=
  if h : s.current_task_index < s.tasks.length then
    let t := s.tasks.get ⟨s.current_task_index, h⟩
    if t.status = Status.completed then
      match az with
      | Except.error msg => { s with errors := s.errors ++ ["Analysis error: " ++ msg] }
      | Except.ok a =>
        { s with
          tasks := s.tasks.set s.current_task_index { t with analysis := some a }
          discovered_targets := s.discovered_targets ++
            a.new_targets.filter (fun x => !(s.discovered_targets.contains x)) }
    else s
  else s

/-- The fresh nmap follow-up task `_update_task_list` appends for a newly
discovered target. -/
def nmap_task (target : String) : TaskInfo :=
  { tool := "nmap", params := [("target", target), ("flags", "-sV")],
    status := Status.pending, result := none, retries := 0,
    command := none, error := none, analysis := none }

/-- The fresh gobuster follow-up task `_update_task_list` appends for a
newly discovered target. -/
def gobuster_task (target : String) : TaskInfo :=
  { tool := "gobuster", params := [("target", target)],
    status := Status.pending, result := none, retries := 0,
    command := none, error := none, analysis := none }

/-- The `already_scheduled` check of `_update_task_list`: some existing
task has a case-insensitively equal `params.target` (missing targets read
as the empty string). -/
def already_scheduled (tasks : List TaskInfo) (target : String) : Bool :=
  tasks.any (fun t => pyLower (lookupParamD t.params "target" "") == pyLower target)

/-- The dedup-append loop of `_update_task_list` over the discovered
targets: a target is skipped when it case-insensitively equals the
original run target or when a task for it is already scheduled (including
tasks appended earlier in the same loop); otherwise a fresh task is
appended when the discovering tool is nmap or gobuster (any other tool
appends nothing). -/
def add_new_targets (orig tool : String) : List String → List TaskInfo → List TaskInfo
  | [], tasks => tasks
  | tg :: rest, tasks =>
    if pyLower tg = pyLower orig then add_new_targets orig tool rest tasks
    else if already_scheduled tasks tg then add_new_targets orig tool rest tasks
    else if tool = "nmap" then add_new_targets orig tool rest (tasks ++ [nmap_task tg])
    else if tool = "gobuster" then add_new_targets orig tool rest (tasks ++ [gobuster_task tg])
    else add_new_targets orig tool rest tasks

/-- `_update_task_list` of `main.py`: if the current task carries an
analysis, run the dedup-append loop over its `new_targets`; otherwise
return the state unchanged.  (The router only reaches this node with the
cursor in range; out of range the Python code would raise `IndexError`,
modelled as an unchanged state.) -/
def update_task_list (s : ScanState) : ScanState :=
  match s.tasks[s.current_task_index]? with
  | none => s
  | some t =>
    match t.analysis with
    | none => s
    | some a => { s with tasks := add_new_targets s.target t.tool a.new_targets s.tasks }

/-- The `new_targets` list of the analysis attached to the current task
(empty when there is no current task or no analysis). -/
def current_new_targets (s : ScanState) : List String :=
  match s.tasks[s.current_task_index]? with
  | some t =>
    match t.analysis with
    | some a => a.new_targets
    | none => []
  | none => []

/-- The nodes of the four-stage retry workflow of `main.py`. -/
inductive Node where
  | plan
  | execute
  | analyze
  | update
  | terminal
deriving DecidableEq

/-- Oracles of one retry-variant run: the planner LLM call, per-cursor
process behaviour and per-cursor analysis LLM behaviour (each cursor value
reaches execute/analyze at most once). -/
structure Env where
  planner : Except String (List PlannedTask)
  tool : Nat → String → ToolOutcome
  analyzer : Nat → Except String TaskAnalysis

/-- One transition of the `main.py` router: `route_after_plan` enters
execution iff tasks were produced; `route_after_execute` ends the run iff
the error log is non-empty and otherwise always moves to the per-task
analysis; `route_after_analyze` always moves to update;
`route_after_update` increments the cursor and loops back to execute while
`current_task_index < len(tasks) - 1`, and otherwise ends the run. -/
def step (env : Env) : Node × ScanState → Node × ScanState
  | (Node.plan, s) =>
    let s2 := plan_tasks env.planner s
    (if s2.tasks.isEmpty then Node.terminal else Node.execute, s2)
  | (Node.execute, s) =>
    let s2 := execute_current_task (env.tool s.current_task_index) s
    (if s2.errors.isEmpty then Node.analyze else Node.terminal, s2)
  | (Node.analyze, s) =>
    (Node.update, analyze_results (env.analyzer s.current_task_index) s)
  | (Node.update, s) =>
    let s2 := update_task_list s
    if s2.current_task_index < s2.tasks.length - 1 then
      (Node.execute, { s2 with current_task_index := s2.current_task_index + 1 })
    else
      (Node.terminal, s2)
  | (Node.terminal, s) => (Node.terminal, s)

/-- `n` router steps of the `main.py` workflow from a start state. -/
def run (env : Env) (s0 : ScanState) (n : Nat) : Node × ScanState :=
  (step env)^[n] (Node.plan, s0)

/-- A retry-variant run with a single planned task whose only execution
attempt raises. -/
def env_fail_once : Env :=
  { planner := Except.ok [{ tool := "nmap", params := [("target", "10.0.0.1")] }]
    tool := fun _ _ => ToolOutcome.raised "Command timed out after 300 seconds"
    analyzer := fun _ => Except.error "unused" }

/-- A retry-variant run with two planned tasks where the first execution
attempt raises and any later attempt succeeds. -/
def env_fail_first_of_two : Env :=
  { planner := Except.ok [{ tool := "nmap", params := [("target", "10.0.0.1")] },
                          { tool := "nmap", params := [("target", "10.0.0.2")] }]
    tool := fun i _ =>
      if i = 0 then ToolOutcome.raised "connection reset" else ToolOutcome.finished "ok" "" 0
    analyzer := fun _ => Except.error "unused" }

/-- C1: evaluation of the retry variant at a first-attempt failure.  The
executor does increment `retries` and reset the status to pending without
logging (consistent with the executor half of the claim), but the router
NEVER re-attempts the task at the same cursor position: with a single
task, `route_after_update` returns END (cursor 0 is not < len - 1 = 0) and
the run terminates with the task still pending and `retries = 1`; with a
second task present, the router instead ADVANCES the cursor to 1, leaving
task 0 pending forever.  Each cursor position is executed at most once, so
the claimed in-place re-attempt never happens. -/
theorem C1_retry_never_reattempted :
    (run env_fail_once (initState "scan" "example.com") 4).1 = Node.terminal ∧
    (run env_fail_once (initState "scan" "example.com") 4).2.tasks =
      [{ tool := "nmap", params := [("target", "10.0.0.1")], status := Status.pending,
         result := none, retries := 1, command := none, error := none, analysis := none }] ∧
    (run env_fail_once (initState "scan" "example.com") 4).2.errors = [] ∧
    run env_fail_once (initState "scan" "example.com") 5 =
      run env_fail_once (initState "scan" "example.com") 4 ∧
    (run env_fail_first_of_two (initState "scan" "example.com") 4).1 = Node.execute ∧
    (run env_fail_first_of_two (initState "scan" "example.com") 4).2.current_task_index = 1 ∧
    (run env_fail_first_of_two (initState "scan" "example.com") 4).2.tasks.map
        (fun t => (t.status, t.retries)) =
      [(Status.pending, 1), (Status.pending, 0)] := by
  refine ⟨by decide, by decide, by decide, by decide, by decide, by decide, by decide⟩

/-- A target that some existing task already schedules keeps being
scheduled when more tasks are appended. -/
theorem scheduled_mono (acc extra : List TaskInfo) (tg : String)
    (h : already_scheduled acc tg = true) :
    already_scheduled (acc ++ extra) tg = true := by
  simp only [already_scheduled, List.any_append, Bool.or_eq_true]
  exact Or.inl h

/-- A target not scheduled after appending was not scheduled before
either. -/
theorem scheduled_append_false (acc extra : List TaskInfo) (tg : String)
    (h : already_scheduled (acc ++ extra) tg = false) :
    already_scheduled acc tg = false := by
  by_contra hc
  rw [Bool.not_eq_false] at hc
  rw [scheduled_mono acc extra tg hc] at h
  simp at h

/-- Appending a task whose `params.target` is `tg` makes `tg`
scheduled. -/
theorem scheduled_of_append_self (acc : List TaskInfo) (t : TaskInfo) (tg : String)
    (ht : lookupParamD t.params "target" "" = tg) :
    already_scheduled (acc ++ [t]) tg = true := by
  simp only [already_scheduled, List.any_append, List.any_cons, List.any_nil,
    Bool.or_false, Bool.or_eq_true]
  right
  rw [ht]
  simp

theorem lookup_nmap_task (tg : String) :
    lookupParamD (nmap_task tg).params "target" "" = tg := rfl

theorem lookup_gobuster_task (tg : String) :
    lookupParamD (gobuster_task tg).params "target" "" = tg := rfl

/-- The dedup-append loop only ever appends at the end of the task
list. -/
theorem add_new_targets_shape (orig tool : String) (ts : List String) (acc : List TaskInfo) :
    ∃ extra, add_new_targets orig tool ts acc = acc ++ extra := by
  induction ts generalizing acc with
  | nil => exact ⟨[], by simp [add_new_targets]⟩
  | cons tg rest ih =>
    simp only [add_new_targets]
    split_ifs with h1 h2 h3 h4
    · exact ih acc
    · exact ih acc
    · obtain ⟨e, he⟩ := ih (acc ++ [nmap_task tg])
      exact ⟨[nmap_task tg] ++ e, by rw [he, List.append_assoc]⟩
    · obtain ⟨e, he⟩ := ih (acc ++ [gobuster_task tg])
      exact ⟨[gobuster_task tg] ++ e, by rw [he, List.append_assoc]⟩
    · exact ih acc

/-- After one pass of the dedup-append loop, every processed target is
either excluded for equalling the original target, or scheduled in the
resulting list — unless the discovering tool appends nothing at all. -/
theorem add_new_targets_covered (orig tool : String) (ts : List String) (acc : List TaskInfo)
    (tg : String) (htg : tg ∈ ts) :
    pyLower tg = pyLower orig ∨
    already_scheduled (add_new_targets orig tool ts acc) tg = true ∨
    (tool ≠ "nmap" ∧ tool ≠ "gobuster") := by
  induction ts generalizing acc with
  | nil => cases htg
  | cons tg0 rest ih =>
    rcases List.mem_cons.mp htg with heq | hmem
    · subst heq
      simp only [add_new_targets]
      split_ifs with h1 h2 h3 h4
      · exact Or.inl h1
      · obtain ⟨e, he⟩ := add_new_targets_shape orig tool rest acc
        exact Or.inr (Or.inl (by rw [he]; exact scheduled_mono acc e tg h2))
      · obtain ⟨e, he⟩ := add_new_targets_shape orig tool rest (acc ++ [nmap_task tg])
        refine Or.inr (Or.inl ?_)
        rw [he]
        exact scheduled_mono _ e tg
          (scheduled_of_append_self acc (nmap_task tg) tg (lookup_nmap_task tg))
      · obtain ⟨e, he⟩ := add_new_targets_shape orig tool rest (acc ++ [gobuster_task tg])
        refine Or.inr (Or.inl ?_)
        rw [he]
        exact scheduled_mono _ e tg
          (scheduled_of_append_self acc (gobuster_task tg) tg (lookup_gobuster_task tg))
      · exact Or.inr (Or.inr ⟨h3, h4⟩)
    · simp only [add_new_targets]
      split_ifs with h1 h2 h3 h4
      · exact ih acc hmem
      · exact ih acc hmem
      · exact ih (acc ++ [nmap_task tg0]) hmem
      · exact ih (acc ++ [gobuster_task tg0]) hmem
      · exact ih acc hmem

/-- If every target of the list is already excluded or scheduled (or the
tool appends nothing), the dedup-append loop is the identity. -/
theorem add_new_targets_noop (orig tool : String) (ts : List String) (acc : List TaskInfo)
    (h : ∀ tg ∈ ts, pyLower tg = pyLower orig ∨ already_scheduled acc tg = true ∨
      (tool ≠ "nmap" ∧ tool ≠ "gobuster")) :
    add_new_targets orig tool ts acc = acc := by
  induction ts with
  | nil => simp [add_new_targets]
  | cons tg0 rest ih =>
    have h0 := h tg0 (List.mem_cons_self _ _)
    have hrest : ∀ tg ∈ rest, pyLower tg = pyLower orig ∨ already_scheduled acc tg = true ∨
        (tool ≠ "nmap" ∧ tool ≠ "gobuster") :=
      fun tg htg => h tg (List.mem_cons_of_mem _ htg)
    simp only [add_new_targets]
    split_ifs with h1 h2 h3 h4
    · exact ih hrest
    · exact ih hrest
    · rcases h0 with hc | hc | hc
      · exact absurd hc h1
      · exact absurd hc h2
      · exact absurd h3 hc.1
    · rcases h0 with hc | hc | hc
      · exact absurd hc h1
      · exact absurd hc h2
      · exact absurd h4 hc.2
    · exact ih hrest

/-- Running the dedup-append loop twice over the same target list appends
nothing on the second pass. -/
theorem add_new_targets_idem (orig tool : String) (ts : List String) (acc : List TaskInfo) :
    add_new_targets orig tool ts (add_new_targets orig tool ts acc) =
      add_new_targets orig tool ts acc :=
  add_new_targets_noop orig tool ts (add_new_targets orig tool ts acc)
    (fun tg htg => add_new_targets_covered orig tool ts acc tg htg)

/-- Every task in the output of the dedup-append loop is an input task or
a fresh follow-up task for some processed target that neither equals the
original target case-insensitively nor was scheduled in the input
list. -/
theorem add_new_targets_mem (orig tool : String) (ts : List String) (acc : List TaskInfo)
    (x : TaskInfo) (hx : x ∈ add_new_targets orig tool ts acc) :
    x ∈ acc ∨ ∃ tg, tg ∈ ts ∧ (x = nmap_task tg ∨ x = gobuster_task tg) ∧
      pyLower tg ≠ pyLower orig ∧ already_scheduled acc tg = false := by
  induction ts generalizing acc with
  | nil =>
    simp only [add_new_targets] at hx
    exact Or.inl hx
  | cons tg0 rest ih =>
    simp only [add_new_targets] at hx
    by_cases h1 : pyLower tg0 = pyLower orig
    · rw [if_pos h1] at hx
      rcases ih acc hx with h | ⟨tg, htg, hsh, hne, hsch⟩
      · exact Or.inl h
      · exact Or.inr ⟨tg, List.mem_cons_of_mem _ htg, hsh, hne, hsch⟩
    · rw [if_neg h1] at hx
      by_cases h2 : already_scheduled acc tg0 = true
      · rw [if_pos h2] at hx
        rcases ih acc hx with h | ⟨tg, htg, hsh, hne, hsch⟩
        · exact Or.inl h
        · exact Or.inr ⟨tg, List.mem_cons_of_mem _ htg, hsh, hne, hsch⟩
      · have h2f : already_scheduled acc tg0 = false := by
          cases hval : already_scheduled acc tg0
          · rfl
          · exact absurd hval h2
        rw [if_neg h2] at hx
        by_cases h3 : tool = "nmap"
        · rw [if_pos h3] at hx
          rcases ih (acc ++ [nmap_task tg0]) hx with h | ⟨tg, htg, hsh, hne, hsch⟩
          · rcases List.mem_append.mp h with h | h
            · exact Or.inl h
            · have hx0 : x = nmap_task tg0 := by simpa using h
              exact Or.inr ⟨tg0, List.mem_cons_self _ _, Or.inl hx0, h1, h2f⟩
          · exact Or.inr ⟨tg, List.mem_cons_of_mem _ htg, hsh, hne,
              scheduled_append_false acc _ tg hsch⟩
        · rw [if_neg h3] at hx
          by_cases h4 : tool = "gobuster"
          · rw [if_pos h4] at hx
            rcases ih (acc ++ [gobuster_task tg0]) hx with h | ⟨tg, htg, hsh, hne, hsch⟩
            · rcases List.mem_append.mp h with h | h
              · exact Or.inl h
              · have hx0 : x = gobuster_task tg0 := by simpa using h
                exact Or.inr ⟨tg0, List.mem_cons_self _ _, Or.inr hx0, h1, h2f⟩
            · exact Or.inr ⟨tg, List.mem_cons_of_mem _ htg, hsh, hne,
                scheduled_append_false acc _ tg hsch⟩
          · rw [if_neg h4] at hx
            rcases ih acc hx with h | ⟨tg, htg, hsh, hne, hsch⟩
            · exact Or.inl h
            · exact Or.inr ⟨tg, List.mem_cons_of_mem _ htg, hsh, hne, hsch⟩

theorem update_task_list_of_none (s : ScanState)
    (h : s.tasks[s.current_task_index]? = none) : update_task_list s = s := by
  simp [update_task_list, h]

theorem update_task_list_of_no_analysis (s : ScanState) (t : TaskInfo)
    (h : s.tasks[s.current_task_index]? = some t) (ha : t.analysis = none) :
    update_task_list s = s := by
  simp [update_task_list, h, ha]

theorem update_task_list_of_analysis (s : ScanState) (t : TaskInfo) (a : TaskAnalysis)
    (h : s.tasks[s.current_task_index]? = some t) (ha : t.analysis = some a) :
    update_task_list s =
      { s with tasks := add_new_targets s.target t.tool a.new_targets s.tasks } := by
  simp [update_task_list, h, ha]

/-- The Updater is idempotent on every state. -/
theorem update_task_list_idem (s : ScanState) :
    update_task_list (update_task_list s) = update_task_list s := by
  cases hget : s.tasks[s.current_task_index]? with
  | none => rw [update_task_list_of_none s hget, update_task_list_of_none s hget]
  | some t =>
    cases ha : t.analysis with
    | none =>
      rw [update_task_list_of_no_analysis s t hget ha,
        update_task_list_of_no_analysis s t hget ha]
    | some a =>
      rw [update_task_list_of_analysis s t a hget ha]
      obtain ⟨e, he⟩ := add_new_targets_shape s.target t.tool a.new_targets s.tasks
      obtain ⟨hidx, hgetelem⟩ := List.getElem?_eq_some_iff.mp hget
      have hget2 : (add_new_targets s.target t.tool a.new_targets s.tasks)[s.current_task_index]? =
          some t := by
        rw [he, List.getElem?_append_left hidx]
        exact hget
      rw [update_task_list_of_analysis _ t a hget2 ha]
      dsimp only
      rw [add_new_targets_idem]

/-- Every task present after one Updater pass is an original task or a
fresh deduplicated follow-up task. -/
theorem update_task_list_mem (s : ScanState) (x : TaskInfo)
    (hx : x ∈ (update_task_list s).tasks) :
    x ∈ s.tasks ∨ ∃ tg, tg ∈ current_new_targets s ∧
      (x = nmap_task tg ∨ x = gobuster_task tg) ∧
      pyLower tg ≠ pyLower s.target ∧ already_scheduled s.tasks tg = false := by
  cases hget : s.tasks[s.current_task_index]? with
  | none =>
    rw [update_task_list_of_none s hget] at hx
    exact Or.inl hx
  | some t =>
    cases ha : t.analysis with
    | none =>
      rw [update_task_list_of_no_analysis s t hget ha] at hx
      exact Or.inl hx
    | some a =>
      rw [update_task_list_of_analysis s t a hget ha] at hx
      rcases add_new_targets_mem s.target t.tool a.new_targets s.tasks x hx with
        h | ⟨tg, htg, hsh, hne, hsch⟩
      · exact Or.inl h
      · refine Or.inr ⟨tg, ?_, hsh, hne, hsch⟩
        simpa [current_new_targets, hget, ha] using htg

/-- C6: the Updater is dedup-stable: a candidate target is appended as a
new task only if it does not case-insensitively equal the original run
target and no existing task schedules it case-insensitively, and applying
the Updater twice with the same analysis output appends nothing new on the
second application. -/
theorem C6_updater_dedup (s : ScanState) :
    update_task_list (update_task_list s) = update_task_list s ∧
    ∀ x ∈ (update_task_list s).tasks, x ∈ s.tasks ∨
      ∃ tg, tg ∈ current_new_targets s ∧ (x = nmap_task tg ∨ x = gobuster_task tg) ∧
        pyLower tg ≠ pyLower s.target ∧ already_scheduled s.tasks tg = false :=
  ⟨update_task_list_idem s, fun x hx => update_task_list_mem s x hx⟩

/-- A concrete state for the Updater claims: the current task discovered
"sub.example.com" twice and the original target in different casing. -/
def s_upd : ScanState :=
  { initState "scan" "example.com" with
    tasks := [{ tool := "nmap", params := [("target", "example.com")],
                status := Status.completed, result := none, retries := 0,
                command := none, error := none,
                analysis := some ⟨["sub.example.com", "EXAMPLE.com", "sub.example.com"]⟩ }] }

/-- Witness for C6 at a concrete state and a concrete appended task. -/
theorem C6_updater_dedup_witness :
    update_task_list (update_task_list s_upd) = update_task_list s_upd ∧
    (nmap_task "sub.example.com" ∈ s_upd.tasks ∨
      ∃ tg, tg ∈ current_new_targets s_upd ∧
        (nmap_task "sub.example.com" = nmap_task tg ∨
          nmap_task "sub.example.com" = gobuster_task tg) ∧
        pyLower tg ≠ pyLower s_upd.target ∧ already_scheduled s_upd.tasks tg = false) :=
  ⟨(C6_updater_dedup s_upd).1,
    (C6_updater_dedup s_upd).2 (nmap_task "sub.example.com") (by decide)⟩

/-- C7: a task freshly appended by the Updater never targets the original
run target, under case-insensitive comparison. -/
theorem C7_original_target_never_appended (s : ScanState) (x : TaskInfo)
    (hx : x ∈ (update_task_list s).tasks) (hnew : x ∉ s.tasks) :
    pyLower (lookupParamD x.params "target" "") ≠ pyLower s.target := by
  rcases update_task_list_mem s x hx with h | ⟨tg, _, hsh, hne, _⟩
  · exact absurd h hnew
  · rcases hsh with rfl | rfl
    · rw [lookup_nmap_task]
      exact hne
    · rw [lookup_gobuster_task]
      exact hne

/-- Witness for C7 at a concrete state and appended task. -/
theorem C7_original_target_never_appended_witness :
    pyLower (lookupParamD (nmap_task "sub.example.com").params "target" "") ≠
      pyLower s_upd.target :=
  C7_original_target_never_appended s_upd (nmap_task "sub.example.com")
    (by decide) (by decide)

/-- With the cursor in range, the retry-variant executor rewrites the
current task and sets the errors to the old log or the old log plus one
entry; the cursor is untouched. -/
theorem execute_shape_r (tool : String → ToolOutcome) (s : ScanState)
    (h : s.current_task_index < s.tasks.length) :
    ∃ x E, (E = s.errors ∨ ∃ e, E = s.errors ++ [e]) ∧
      execute_current_task tool s =
        { s with tasks := s.tasks.set s.current_task_index x
                 errors := E } := by
  unfold execute_current_task
  rw [dif_pos h]
  dsimp only
  repeat' split
  all_goals first
    | exact ⟨_, _, Or.inl rfl, rfl⟩
    | exact ⟨_, _, Or.inr ⟨_, rfl⟩, rfl⟩

/-- With the cursor out of range the retry-variant executor is the
identity (the Python code would raise before any update). -/
theorem execute_oob_r (tool : String → ToolOutcome) (s : ScanState)
    (h : s.tasks.length ≤ s.current_task_index) :
    execute_current_task tool s = s := by
  unfold execute_current_task
  rw [dif_neg (by omega)]

/-- The retry-variant analysis node keeps the cursor, the task count and
the final-analysis field. -/
theorem analyze_results_core (az : Except String TaskAnalysis) (s : ScanState) :
    (analyze_results az s).current_task_index = s.current_task_index ∧
    (analyze_results az s).tasks.length = s.tasks.length ∧
    (analyze_results az s).analysis = s.analysis := by
  unfold analyze_results
  by_cases h : s.current_task_index < s.tasks.length
  · rw [dif_pos h]
    dsimp only
    split
    · split
      · exact ⟨rfl, rfl, rfl⟩
      · exact ⟨rfl, by simp [List.length_set], rfl⟩
    · exact ⟨rfl, rfl, rfl⟩
  · rw [dif_neg h]
    exact ⟨rfl, rfl, rfl⟩

/-- The Updater keeps the cursor and only appends tasks. -/
theorem update_task_list_core (s : ScanState) :
    (update_task_list s).current_task_index = s.current_task_index ∧
    ∃ e, (update_task_list s).tasks = s.tasks ++ e := by
  cases hget : s.tasks[s.current_task_index]? with
  | none =>
    rw [update_task_list_of_none s hget]
    exact ⟨rfl, [], by simp⟩
  | some t =>
    cases ha : t.analysis with
    | none =>
      rw [update_task_list_of_no_analysis s t hget ha]
      exact ⟨rfl, [], by simp⟩
    | some a =>
      rw [update_task_list_of_analysis s t a hget ha]
      obtain ⟨e, he⟩ := add_new_targets_shape s.target t.tool a.new_targets s.tasks
      exact ⟨rfl, e, he⟩

/-- The reachability invariant of the retry-variant router: the cursor is
bounded by the task count, strictly so in the execute / analyze / update
stages, and zero at the planning stage. -/
def GoodR : Node × ScanState → Prop
  | (nd, s) =>
    s.current_task_index ≤ s.tasks.length ∧
    (nd = Node.plan → s.current_task_index = 0) ∧
    ((nd = Node.execute ∨ nd = Node.analyze ∨ nd = Node.update) →
      s.current_task_index < s.tasks.length)

/-- One retry-variant router step preserves the reachability
invariant. -/
theorem step_good (env : Env) (c : Node × ScanState) (hc : GoodR c) : GoodR (step env c) := by
  obtain ⟨nd, s⟩ := c
  obtain ⟨hle, hplan, hact⟩ := hc
  cases nd with
  | plan =>
    have h0 : s.current_task_index = 0 := hplan rfl
    have hcore := FailFast.plan_tasks_core env.planner s
    simp only [step]
    refine ⟨?_, ?_, ?_⟩
    · rw [hcore.1, h0]
      exact Nat.zero_le _
    · intro _
      rw [hcore.1, h0]
    · intro hx
      by_cases hemp : (plan_tasks env.planner s).tasks.isEmpty
      · rw [if_pos hemp] at hx
        rcases hx with hx | hx | hx <;> cases hx
      · have hne : (plan_tasks env.planner s).tasks ≠ [] := by
          intro hnil
          rw [hnil] at hemp
          simp at hemp
        rw [hcore.1, h0]
        exact List.length_pos.mpr hne
  | execute =>
    have hin : s.current_task_index < s.tasks.length := hact (Or.inl rfl)
    obtain ⟨x, E, hE, heq⟩ := execute_shape_r (env.tool s.current_task_index) s hin
    simp only [step]
    rw [heq]
    refine ⟨?_, ?_, ?_⟩
    · dsimp only
      simp only [List.length_set]
      omega
    · intro hx
      split at hx <;> cases hx
    · intro _
      dsimp only
      simp only [List.length_set]
      omega
  | analyze =>
    have hin : s.current_task_index < s.tasks.length := hact (Or.inr (Or.inl rfl))
    have hcore := analyze_results_core (env.analyzer s.current_task_index) s
    simp only [step]
    refine ⟨?_, ?_, ?_⟩
    · rw [hcore.1, hcore.2.1]
      omega
    · intro hx
      cases hx
    · intro _
      rw [hcore.1, hcore.2.1]
      exact hin
  | update =>
    have hin : s.current_task_index < s.tasks.length := hact (Or.inr (Or.inr rfl))
    have hcore := update_task_list_core s
    obtain ⟨e, he⟩ := hcore.2
    simp only [step]
    by_cases hlt : (update_task_list s).current_task_index <
        (update_task_list s).tasks.length - 1
    · rw [if_pos hlt]
      refine ⟨?_, ?_, ?_⟩
      · dsimp only
        omega
      · intro hx
        cases hx
      · intro _
        dsimp only
        omega
    · rw [if_neg hlt]
      refine ⟨?_, fun hx => Node.noConfusion hx, ?_⟩
      · rw [hcore.1, he]
        simp only [List.length_append]
        omega
      · intro hx
        rcases hx with hx | hx | hx <;> cases hx
  | terminal =>
    refine ⟨hle, fun hx => Node.noConfusion hx, ?_⟩
    intro hx
    rcases hx with hx | hx | hx <;> cases hx

/-- The retry-variant reachability invariant holds at every observation
point of a run. -/
theorem goodR_run (env : Env) (i t : String) (n : Nat) :
    GoodR (Retry.run env (initState i t) n) := by
  induction n with
  | zero =>
    refine ⟨Nat.le_refl 0, fun _ => rfl, ?_⟩
    intro hx
    rcases hx with hx | hx | hx <;> cases hx
  | succ n ih =>
    rw [Retry.run, Function.iterate_succ_apply']
    exact step_good env _ ih

/-- One retry-variant router step never decreases the cursor. -/
theorem step_mono (env : Env) (c : Node × ScanState) :
    c.2.current_task_index ≤ (step env c).2.current_task_index := by
  obtain ⟨nd, s⟩ := c
  cases nd with
  | plan => simp [step, (FailFast.plan_tasks_core env.planner s).1]
  | execute =>
    by_cases h : s.current_task_index < s.tasks.length
    · obtain ⟨x, E, _, heq⟩ := execute_shape_r (env.tool s.current_task_index) s h
      simp [step, heq]
    · simp [step, execute_oob_r (env.tool s.current_task_index) s (by omega)]
  | analyze => simp [step, (analyze_results_core (env.analyzer s.current_task_index) s).1]
  | update =>
    have h1 := (update_task_list_core s).1
    simp only [step]
    by_cases hlt : (update_task_list s).current_task_index <
        (update_task_list s).tasks.length - 1
    · rw [if_pos hlt]
      dsimp only
      omega
    · rw [if_neg hlt]
      dsimp only
      omega
  | terminal => simp [step]

/-- The retry-variant terminal node is absorbing. -/
theorem run_of_terminal_r (env : Env) (c0 : Node × ScanState) (s1 : ScanState) (k n : Nat)
    (hk : k ≤ n) (h : (step env)^[k] c0 = (Node.terminal, s1)) :
    (step env)^[n] c0 = (Node.terminal, s1) := by
  induction n, hk using Nat.le_induction with
  | base => exact h
  | succ n hkn ih =>
    rw [Function.iterate_succ_apply', ih]
    rfl

end Retry

namespace FailFast

/-- The fail-fast terminal node is absorbing (for either analysis-stage
body). -/
theorem run_of_terminal (az : ScanState → ScanState)
    (planner : Except String (List PlannedTask)) (proc : Nat → String → ProcOutcome)
    (c0 : Node × ScanState) (s1 : ScanState) (k n : Nat)
    (hk : k ≤ n) (h : (step_scan az planner proc)^[k] c0 = (Node.terminal, s1)) :
    (step_scan az planner proc)^[n] c0 = (Node.terminal, s1) := by
  induction n, hk using Nat.le_induction with
  | base => exact h
  | succ n hkn ih =>
    rw [Function.iterate_succ_apply', ih]
    rfl

/-- An empty plan routes the fail-fast machine straight to the terminal
node with the initial state untouched. -/
theorem step_scan_plan_empty (az : ScanState → ScanState)
    (planner : Except String (List PlannedTask)) (proc : Nat → String → ProcOutcome)
    (i t : String) (hp : planner = Except.ok []) :
    step_scan az planner proc (Node.plan, initState i t) =
      (Node.terminal, initState i t) := by
  subst hp
  simp [step_scan, plan_tasks, initState]

end FailFast

namespace Retry

/-- An empty plan routes the retry machine straight to the terminal node
with the initial state untouched. -/
theorem step_plan_empty (env : Env) (i t : String) (hp : env.planner = Except.ok []) :
    step env (Node.plan, initState i t) = (Node.terminal, initState i t) := by
  rw [step]
  rw [hp]
  simp [plan_tasks, initState]

end Retry

/-- C9: if the Planner returns an empty task list, every variant
terminates immediately: from step 1 on, the machine is in the terminal
node and the state is exactly the initial state (tasks = [], all statuses
untouched since there are none, analysis = None, no errors) — the execute
and analyze stages never run. -/
theorem C9_empty_plan_terminates (i t : String) (envF : FailFast.Env) (envR : Retry.Env)
    (hF : envF.planner = Except.ok []) (hR : envR.planner = Except.ok [])
    (n : Nat) (hn : 1 ≤ n) :
    FailFast.run_v1 envF (initState i t) n = (FailFast.Node.terminal, initState i t) ∧
    FailFast.run_v2 envF (initState i t) n = (FailFast.Node.terminal, initState i t) ∧
    Retry.run envR (initState i t) n = (Retry.Node.terminal, initState i t) := by
  refine ⟨?_, ?_, ?_⟩
  · have h1 : FailFast.run_v1 envF (initState i t) 1 =
        (FailFast.Node.terminal, initState i t) := by
      rw [FailFast.run_v1, Function.iterate_one]
      exact FailFast.step_scan_plan_empty _ _ _ i t hF
    exact FailFast.run_of_terminal _ _ _ _ _ 1 n hn h1
  · have h1 : FailFast.run_v2 envF (initState i t) 1 =
        (FailFast.Node.terminal, initState i t) := by
      rw [FailFast.run_v2, Function.iterate_one]
      exact FailFast.step_scan_plan_empty _ _ _ i t hF
    exact FailFast.run_of_terminal _ _ _ _ _ 1 n hn h1
  · have h1 : Retry.run envR (initState i t) 1 = (Retry.Node.terminal, initState i t) := by
      rw [Retry.run, Function.iterate_one]
      exact Retry.step_plan_empty envR i t hR
    exact Retry.run_of_terminal_r _ _ _ 1 n hn h1

/-- Concrete fail-fast oracles whose planner returns an empty task
list. -/
def env_empty_plan_f : FailFast.Env :=
  { planner := Except.ok []
    proc := fun _ _ => ProcOutcome.timedOut
    llm := fun _ => Except.error "unused" }

/-- Concrete retry-variant oracles whose planner returns an empty task
list. -/
def env_empty_plan_r : Retry.Env :=
  { planner := Except.ok []
    tool := fun _ _ => Retry.ToolOutcome.raised "unused"
    analyzer := fun _ => Except.error "unused" }

/-- Witness for C9 at concrete oracles and step count. -/
theorem C9_empty_plan_terminates_witness :
    FailFast.run_v1 env_empty_plan_f (initState "scan" "example.com") 1 =
      (FailFast.Node.terminal, initState "scan" "example.com") ∧
    FailFast.run_v2 env_empty_plan_f (initState "scan" "example.com") 1 =
      (FailFast.Node.terminal, initState "scan" "example.com") ∧
    Retry.run env_empty_plan_r (initState "scan" "example.com") 1 =
      (Retry.Node.terminal, initState "scan" "example.com") :=
  C9_empty_plan_terminates "scan" "example.com" env_empty_plan_f env_empty_plan_r
    rfl rfl 1 (by decide)

/-- C4: in every variant, at every observation point of a run from the
initial state, the cursor never decreases from one router step to the
next and never exceeds the length of the task list. -/
theorem C4_cursor_monotone_bounded (i t : String) (envF : FailFast.Env)
    (envR : Retry.Env) (n : Nat) :
    ((FailFast.run_v1 envF (initState i t) n).2.current_task_index ≤
        (FailFast.run_v1 envF (initState i t) (n + 1)).2.current_task_index ∧
      (FailFast.run_v1 envF (initState i t) n).2.current_task_index ≤
        (FailFast.run_v1 envF (initState i t) n).2.tasks.length) ∧
    ((FailFast.run_v2 envF (initState i t) n).2.current_task_index ≤
        (FailFast.run_v2 envF (initState i t) (n + 1)).2.current_task_index ∧
      (FailFast.run_v2 envF (initState i t) n).2.current_task_index ≤
        (FailFast.run_v2 envF (initState i t) n).2.tasks.length) ∧
    ((Retry.run envR (initState i t) n).2.current_task_index ≤
        (Retry.run envR (initState i t) (n + 1)).2.current_task_index ∧
      (Retry.run envR (initState i t) n).2.current_task_index ≤
        (Retry.run envR (initState i t) n).2.tasks.length) := by
  refine ⟨⟨?_, ?_⟩, ⟨?_, ?_⟩, ⟨?_, ?_⟩⟩
  · rw [FailFast.run_v1, FailFast.run_v1, Function.iterate_succ_apply']
    exact FailFast.step_scan_mono _
      (fun s2 => (FailFast.analyze_results_pres envF.llm s2).2) _ _ _
  · exact (FailFast.goodF_run (FailFast.analyze_results envF.llm)
      (fun s2 => FailFast.analyze_results_pres envF.llm s2) envF.planner envF.proc i t n).1
  · rw [FailFast.run_v2, FailFast.run_v2, Function.iterate_succ_apply']
    exact FailFast.step_scan_mono _
      (fun s2 => (FailFast.analyze_results_v2_pres envF.llm s2).2) _ _ _
  · exact (FailFast.goodF_run (FailFast.analyze_results_v2 envF.llm)
      (fun s2 => FailFast.analyze_results_v2_pres envF.llm s2) envF.planner envF.proc i t n).1
  · rw [Retry.run, Retry.run, Function.iterate_succ_apply']
    exact Retry.step_mono envR _
  · exact (Retry.goodR_run envR i t n).1

namespace FailFast

/-- A fail-fast execute step that changes the error log routes to the
terminal node and leaves the analysis field untouched. -/
theorem step_scan_execute_error (az : ScanState → ScanState)
    (p : Except String (List PlannedTask)) (pr : Nat → String → ProcOutcome)
    (s : ScanState)
    (herr : (step_scan az p pr (Node.execute, s)).2.errors ≠ s.errors) :
    (step_scan az p pr (Node.execute, s)).1 = Node.terminal ∧
    (step_scan az p pr (Node.execute, s)).2.analysis = s.analysis := by
  by_cases h : s.current_task_index < s.tasks.length
  · obtain ⟨x, E, hE, heq⟩ := execute_current_task_shape (pr s.current_task_index) s h
    rcases hE with hE | ⟨e, hE⟩
    · exfalso
      apply herr
      simp [step_scan, heq, hE]
    · subst hE
      constructor
      · simp [step_scan, heq]
      · simp [step_scan, heq]
  · exfalso
    apply herr
    simp [step_scan, execute_current_task_oob (pr s.current_task_index) s (by omega)]

end FailFast

/-- C5: in the fail-fast variant (`scanner.py`), if an execute step
appends an entry to the error log, the run is over: the router moves to
the terminal node and stays there, the state never changes again, the
analysis field is (and remains) None, and every task at or past the
cursor — i.e. every task after the failing one — still has status pending
and is never attempted. -/
theorem C5_failfast_error_isolation (i t : String) (env : FailFast.Env) (k n : Nat)
    (hnode : (FailFast.run_v1 env (initState i t) k).1 = FailFast.Node.execute)
    (herr : (FailFast.run_v1 env (initState i t) (k + 1)).2.errors ≠
      (FailFast.run_v1 env (initState i t) k).2.errors)
    (hkn : k + 1 ≤ n) :
    FailFast.run_v1 env (initState i t) n = FailFast.run_v1 env (initState i t) (k + 1) ∧
    (FailFast.run_v1 env (initState i t) (k + 1)).1 = FailFast.Node.terminal ∧
    (FailFast.run_v1 env (initState i t) (k + 1)).2.analysis = none ∧
    ∀ j, (FailFast.run_v1 env (initState i t) (k + 1)).2.current_task_index ≤ j →
      ∀ x, (FailFast.run_v1 env (initState i t) (k + 1)).2.tasks[j]? = some x →
        x.status = Status.pending := by
  have hc : FailFast.run_v1 env (initState i t) k =
      (FailFast.Node.execute, (FailFast.run_v1 env (initState i t) k).2) := by
    rw [← hnode]
  have hstep : FailFast.run_v1 env (initState i t) (k + 1) =
      FailFast.step_scan (FailFast.analyze_results env.llm) env.planner env.proc
        (FailFast.Node.execute, (FailFast.run_v1 env (initState i t) k).2) := by
    rw [FailFast.run_v1, Function.iterate_succ_apply', ← FailFast.run_v1, hc]
  have herr2 : (FailFast.step_scan (FailFast.analyze_results env.llm) env.planner env.proc
      (FailFast.Node.execute, (FailFast.run_v1 env (initState i t) k).2)).2.errors ≠
      (FailFast.run_v1 env (initState i t) k).2.errors := by
    rw [← hstep]
    exact herr
  have hkey := FailFast.step_scan_execute_error (FailFast.analyze_results env.llm)
    env.planner env.proc ((FailFast.run_v1 env (initState i t) k).2) herr2
  have hgoodk := FailFast.goodF_run (FailFast.analyze_results env.llm)
    (fun s2 => FailFast.analyze_results_pres env.llm s2) env.planner env.proc i t k
  have hanalk : (FailFast.run_v1 env (initState i t) k).2.analysis = none := by
    refine hgoodk.2.2.2.1 ?_
    intro hterm
    rw [← FailFast.run_v1] at hterm
    rw [hnode] at hterm
    exact FailFast.Node.noConfusion hterm
  have hterm : (FailFast.run_v1 env (initState i t) (k + 1)).1 = FailFast.Node.terminal := by
    rw [hstep]
    exact hkey.1
  have hanal : (FailFast.run_v1 env (initState i t) (k + 1)).2.analysis = none := by
    rw [hstep, hkey.2]
    exact hanalk
  have hgoodk1 := FailFast.goodF_run (FailFast.analyze_results env.llm)
    (fun s2 => FailFast.analyze_results_pres env.llm s2) env.planner env.proc i t (k + 1)
  have hpair : FailFast.run_v1 env (initState i t) (k + 1) =
      (FailFast.Node.terminal, (FailFast.run_v1 env (initState i t) (k + 1)).2) := by
    rw [← hterm]
  refine ⟨?_, hterm, hanal, hgoodk1.2.2.2.2⟩
  calc FailFast.run_v1 env (initState i t) n
      = (FailFast.Node.terminal, (FailFast.run_v1 env (initState i t) (k + 1)).2) :=
        FailFast.run_of_terminal (FailFast.analyze_results env.llm) env.planner env.proc
          (FailFast.Node.plan, initState i t)
          ((FailFast.run_v1 env (initState i t) (k + 1)).2) (k + 1) n hkn hpair
    _ = FailFast.run_v1 env (initState i t) (k + 1) := hpair.symm

/-- Concrete fail-fast oracles: two planned tasks, the first of which
uses an unknown tool and therefore fails at its execute step. -/
def env_exec_fail : FailFast.Env :=
  { planner := Except.ok [{ tool := "netcat", params := [("target", "10.0.0.1")] },
                          { tool := "nmap", params := [("target", "10.0.0.2")] }]
    proc := fun _ _ => ProcOutcome.completed "scan output" "" 0
    llm := fun _ => Except.error "unused" }

/-- Witness for C5 at concrete oracles: the failure is at step 1
(cursor 0), and at step 2 the run is terminal with no analysis. -/
theorem C5_failfast_error_isolation_witness :
    FailFast.run_v1 env_exec_fail (initState "scan" "example.com") 3 =
      FailFast.run_v1 env_exec_fail (initState "scan" "example.com") 2 ∧
    (FailFast.run_v1 env_exec_fail (initState "scan" "example.com") 2).1 =
      FailFast.Node.terminal ∧
    (FailFast.run_v1 env_exec_fail (initState "scan" "example.com") 2).2.analysis = none :=
  have h := C5_failfast_error_isolation "scan" "example.com" env_exec_fail 1 3
    (by decide) (by decide) (by decide)
  ⟨h.1, h.2.1, h.2.2.1⟩

end SecureAI
